import Mathlib

/-!
Verification of `scripts/whitelist_ip.sh` (the Ingress Authorizer).

The script is a linear resolution pipeline over cloud-control-plane query
results: URL parsing, region resolution, CIDR resolution, security-group
discovery, port resolution, and an idempotent authorize-ingress step.  We
embed each section as a Lean function over a `World` structure that models
the responses of the external collaborators (AWS EC2/ECS control plane, the
checkip echo service, DNS).  Every resolver also returns the list of
external calls it issues, so that read-only versus mutating behaviour is
visible in the model.
-/

set_option maxHeartbeats 1000000

/-- A single CIDR entry of an ingress rule (`IpRanges` element), carrying
the `CidrIp` and its `Description` as in the AWS data model. -/
structure IpRange where
  cidrIp : String
  description : String
deriving DecidableEq, Repr

/-- An ingress permission of a security group (`IpPermissions` element):
protocol, from/to port and the attached CIDR ranges. -/
structure IpPermission where
  ipProtocol : String
  fromPort : Int
  toPort : Int
  ipRanges : List IpRange
deriving DecidableEq, Repr

/-- Read-only external calls issued by the script (AWS describe/list
queries, the checkip HTTP request, DNS lookup, local config lookup). -/
inductive ReadCall where
  | describeRegions
  | describeNetworkInterfaces (region ip : String)
  | ecsListClusters (region : String)
  | ecsListServices (region cluster : String)
  | ecsDescribeServices (region cluster service : String)
  | describeSecurityGroups (region sg : String)
  | curlCheckip
  | getentHosts (host : String)
  | configureGetRegion
deriving DecidableEq, Repr

/-- Every external call of the script: either a read-only query or the
single mutating `authorize-security-group-ingress` invocation. -/
inductive ExtCall where
  | read (c : ReadCall)
  | authorizeIngress (region sg protocol : String) (port : Int) (cidr desc : String)
deriving DecidableEq, Repr

/-- Only `authorize-security-group-ingress` mutates cloud state. -/
def isMutation : ExtCall → Bool
  | ExtCall.authorizeIngress _ _ _ _ _ _ => true
  | ExtCall.read _ => false

/-- The state of the external world as observed by the script: regions, the
network interfaces matching a public IP in each region (ids, and the group
ids of the first matching interface), ECS clusters/services and their
security groups, each security group's ingress permissions, the AWS env
configuration, the checkip response body and DNS resolution. -/
structure World where
  regions : List String
  eniIds : String → String → List String
  eniFirstGroups : String → String → List String
  ecsClusters : String → List String
  ecsServices : String → String → List String
  ecsServiceSGs : String → String → String → List String
  sgPermissions : String → String → List IpPermission
  awsRegion : String
  awsDefaultRegion : String
  configRegion : String
  checkipBody : String
  dnsFirstAddr : String → String

/-- The script's command-line flags after argument parsing (lines 29-57);
an empty string models an absent flag, exactly as in the script. -/
structure Flags where
  ip : String := ""
  cidr : String := ""
  target_ip : String := ""
  url : String := ""
  port : String := ""
  protocol : String := "tcp"
  cluster : String := ""
  service : String := ""
  sg_id : String := ""
  region : String := ""
  description : String := "codex-whitelist"
deriving DecidableEq, Repr

/-- Outcome of a run: exit code, the final message, the external calls
issued, and the world after the run (unchanged unless a rule was added). -/
structure RunResult where
  exitCode : Nat
  message : String
  trace : List ExtCall
  world : World

/-- A fatal script error: exit code and the message printed to stderr. -/
structure ScriptErr where
  code : Nat
  msg : String
deriving DecidableEq, Repr

/-! String helpers mirroring the bash parameter expansions used in the
script. -/

/-- Scan left to right for the first occurrence of `://` and return the
remainder, or `none` when `://` does not occur. -/
def dropThroughScheme : List Char → Option (List Char)
  | [] => none
  | ':' :: '/' :: '/' :: rest => some rest
  | _ :: xs => dropThroughScheme xs

/-- Bash `${url#*://}`: drop the shortest prefix ending in `://` (the URL
scheme); the string is unchanged when `://` does not occur. -/
def afterScheme (s : String) : String :=
  match dropThroughScheme s.data with
  | some rest => ⟨rest⟩
  | none => s

/-- The characters before the first occurrence of `c` (all of them when
`c` does not occur). -/
def takeBefore (c : Char) : List Char → List Char
  | [] => []
  | x :: xs => if x = c then [] else x :: takeBefore c xs

/-- Bash `${s%%c*}`: the prefix of `s` before the first occurrence of `c`
(all of `s` when absent). -/
def beforeFirst (c : Char) (s : String) : String :=
  ⟨takeBefore c s.data⟩

/-- Bash `${s##*c}`: the suffix of `s` after the last occurrence of `c`
(all of `s` when absent). -/
def afterLast (c : Char) (s : String) : String :=
  ⟨(takeBefore c s.data.reverse).reverse⟩

/-- Split a character list on a separator character (like the field view of
`IFS`-free splitting used for the dotted-quad test). -/
def splitOnChar (c : Char) : List Char → List (List Char)
  | [] => [[]]
  | x :: xs =>
    if x = c then [] :: splitOnChar c xs
    else
      match splitOnChar c xs with
      | [] => [[x]]
      | h :: t => (x :: h) :: t

/-- The regex `^([0-9]{1,3}\.){3}[0-9]{1,3}$` of line 73: four dot-separated
runs of one to three digits. -/
def isDottedQuad (s : String) : Bool :=
  let parts := splitOnChar '.' s.data
  parts.length == 4 &&
    parts.all (fun p => 1 ≤ p.length && p.length ≤ 3 && p.all Char.isDigit)

/-- Value of a non-empty digit string, or `none` when a non-digit occurs. -/
def digitsVal (acc : Nat) : List Char → Option Nat
  | [] => some acc
  | c :: cs =>
      if c.isDigit then digitsVal (acc * 10 + (c.toNat - '0'.toNat)) cs
      else none

/-- The port text as a JMESPath numeric literal (line 207 embeds
`FromPort==\`port\``): a non-empty digit string denotes its value, anything
else makes the query invalid. -/
def portLiteral? (s : String) : Option Int :=
  match s.data with
  | [] => none
  | cs => (digitsVal 0 cs).map (fun n => (n : Int))

/-- A POSIX `[:space:]` character, as deleted by `tr -d '[:space:]'`. -/
def isPosixSpace (c : Char) : Bool :=
  c == ' ' || c == '\t' || c == '\n' || c == '\x0b' || c == '\x0c' || c == '\r'

/-- The effect of `tr -d '[:space:]'` on the checkip response. -/
def stripSpace (s : String) : String :=
  ⟨s.data.filter (fun c => !isPosixSpace c)⟩

/-- AWS `--output text` emptiness test of the script: the text form of a
query result is treated as absent when it is empty or the literal `None`
(`[[ -z "$x" || "$x" == "None" ]]`). -/
def isNoneText (l : List String) : Bool :=
  l.isEmpty || l == ["None"]

/-- Host and port extracted from a URL (lines 60-68): strip the scheme,
cut at the first `/`, and if a `:` is present split into the part before
the first `:` and the part after the last `:`. -/
def urlHostPort (url : String) : String × String :=
  let hostport := beforeFirst '/' (afterScheme url)
  if hostport.data.contains ':' then
    (beforeFirst ':' hostport, afterLast ':' hostport)
  else (hostport, "")

/-- Port seeding from the URL (lines 69-71): the URL's port is taken only
when `--port` was not given and the URL carries a port. -/
def seedPort (f : Flags) (urlPort : String) : Flags :=
  if f.port = "" ∧ urlPort ≠ "" then { f with port := urlPort } else f

/-- Target-IP seeding from the URL's host (lines 72-81): only when
`--target-ip` was not given and the host is non-empty; a dotted-quad host
is used directly, any other host is resolved via DNS (`getent hosts`) and
used only when resolution is non-empty. -/
def seedTargetIp (w : World) (f : Flags) (host : String) :
    Flags × List ReadCall :=
  if f.target_ip = "" ∧ host ≠ "" then
    if isDottedQuad host then ({ f with target_ip := host }, [])
    else if w.dnsFirstAddr host ≠ "" then
      ({ f with target_ip := w.dnsFirstAddr host }, [ReadCall.getentHosts host])
    else (f, [ReadCall.getentHosts host])
  else (f, [])

/-- URL parsing section (lines 59-82): when `--url` is given, extract host
and port, seed the port, then seed the target IP. -/
def parseUrl (w : World) (f : Flags) : Flags × List ReadCall :=
  if f.url = "" then (f, [])
  else seedTargetIp w (seedPort f (urlHostPort f.url).2) (urlHostPort f.url).1

/-! Error messages printed by the script, transcribed verbatim. -/

/-- Message of line 102. -/
def ambiguousRegionMsg (tip : String) : String :=
  "Public IP " ++ tip ++ " found in multiple regions. Use --region or --sg."

/-- Message of line 115. -/
def regionNotSetMsg : String :=
  "Region not set. Use --region, --url, or set AWS_REGION/AWS_DEFAULT_REGION."

/-- Message of line 124. -/
def failedIpMsg : String := "Failed to determine IP. Use --ip or --cidr."

/-- Message of line 137. -/
def noSgForIpMsg (tip : String) : String :=
  "No security group found for public IP " ++ tip ++ ". Use --sg."

/-- Message of line 142. -/
def multiSgForIpMsg (tip : String) : String :=
  "Multiple security groups found for public IP " ++ tip ++ ". Use --sg."

/-- Message of line 152. -/
def noClustersMsg : String := "No ECS clusters found. Use --cluster or --sg."

/-- Message of line 157. -/
def multiClustersMsg : String :=
  "Multiple ECS clusters found. Use --cluster to select one."

/-- Message of line 166. -/
def noServicesMsg : String := "No ECS services found. Use --service or --sg."

/-- Message of line 171. -/
def multiServicesMsg : String :=
  "Multiple ECS services found. Use --service to select one."

/-- Message of line 179. -/
def noSgOnServiceMsg : String :=
  "No security group found on ECS service. Use --sg."

/-- Message of line 184. -/
def multiSgMsg : String := "Multiple security groups found. Use --sg to select one."

/-- Message of line 195. -/
def noRulesMsg (protocol : String) : String :=
  "No matching " ++ protocol ++ " rules found. Use --port."

/-- Message of line 200. -/
def multiPortsMsg (protocol : String) : String :=
  "Multiple " ++ protocol ++ " ports found. Use --port."

/-- Message of line 211. -/
def alreadyAllowedMsg (cidr protocol port sg : String) : String :=
  cidr ++ " already allowed on " ++ protocol ++ "/" ++ port ++ " in " ++ sg ++ "."

/-- Message of line 218. -/
def addedMsg (cidr sg protocol port region : String) : String :=
  "Added " ++ cidr ++ " to " ++ sg ++ " on " ++ protocol ++ "/" ++ port ++
    " (region " ++ region ++ ")."

/-! Region resolution (lines 84-117). -/

/-- The regions whose network interfaces carry an association with the
target public IP: the loop of lines 90-98 counts a region when the
describe-network-interfaces text output is non-empty and not `None`. -/
def regionMatches (w : World) (tip : String) : List String :=
  w.regions.filter (fun r => !isNoneText (w.eniIds r tip))

/-- Environment/config fallback of lines 106-111: `AWS_REGION`, then
`AWS_DEFAULT_REGION`, then `aws configure get region`; lines 114-117 fail
with exit 2 when all are empty. -/
def fallbackRegion (w : World) (t : List ReadCall) :
    Except ScriptErr String × List ReadCall :=
  let renv := if w.awsRegion ≠ "" then w.awsRegion else w.awsDefaultRegion
  if renv ≠ "" then (Except.ok renv, t)
  else if w.configRegion ≠ "" then
    (Except.ok w.configRegion, t ++ [ReadCall.configureGetRegion])
  else (Except.error ⟨2, regionNotSetMsg⟩, t ++ [ReadCall.configureGetRegion])

/-- Region resolution (lines 84-117): explicit flag first; else, when a
target IP is known, infer from the unique matching region (ambiguity is a
fatal error; the loop keeps the last match, which is the unique one when
exactly one region matches); else fall back to environment and provider
configuration. -/
def resolveRegionT (w : World) (f : Flags) :
    Except ScriptErr String × List ReadCall :=
  if f.region ≠ "" then (Except.ok f.region, [])
  else if f.target_ip ≠ "" then
    let t := ReadCall.describeRegions ::
      w.regions.map (fun r => ReadCall.describeNetworkInterfaces r f.target_ip)
    let ms := regionMatches w f.target_ip
    if ms.length = 1 then (Except.ok (ms.getLastD ""), t)
    else if 1 < ms.length then
      (Except.error ⟨2, ambiguousRegionMsg f.target_ip⟩, t)
    else fallbackRegion w t
  else fallbackRegion w []

/-! CIDR resolution (lines 119-128). -/

/-- CIDR resolution: an explicit `--cidr` is used verbatim; else the
explicit `--ip`, else the checkip response stripped of whitespace, gets
`/32` appended; an empty IP at that point is a fatal error (exit 2). -/
def resolveCidrT (w : World) (f : Flags) :
    Except ScriptErr String × List ReadCall :=
  if f.cidr ≠ "" then (Except.ok f.cidr, [])
  else
    let ipt : String × List ReadCall :=
      if f.ip ≠ "" then (f.ip, [])
      else (stripSpace w.checkipBody, [ReadCall.curlCheckip])
    if ipt.1 = "" then (Except.error ⟨2, failedIpMsg⟩, ipt.2)
    else (Except.ok (ipt.1 ++ "/32"), ipt.2)

/-! Security-group resolution (lines 130-188). -/

/-- IP-based discovery (lines 132-146): the group ids of the first network
interface whose public-IP association matches the target IP
(`NetworkInterfaces[0].Groups[].GroupId`); empty/None output is fatal,
more than one group is fatal, otherwise the single group is used. -/
def sgByIp (w : World) (region tip : String) : Except ScriptErr String :=
  let sgs := w.eniFirstGroups region tip
  if isNoneText sgs then Except.error ⟨2, noSgForIpMsg tip⟩
  else if sgs.length ≠ 1 then Except.error ⟨2, multiSgForIpMsg tip⟩
  else Except.ok (sgs.headD "")

/-- Cluster discovery (lines 149-161): an explicit `--cluster` is used
directly; else list all clusters in the region and require exactly one. -/
def discoverCluster (w : World) (region : String) (f : Flags) :
    Except ScriptErr String × List ReadCall :=
  if f.cluster ≠ "" then (Except.ok f.cluster, [])
  else
    let cs := w.ecsClusters region
    let t := [ReadCall.ecsListClusters region]
    if isNoneText cs then (Except.error ⟨2, noClustersMsg⟩, t)
    else if cs.length ≠ 1 then (Except.error ⟨2, multiClustersMsg⟩, t)
    else (Except.ok (cs.headD ""), t)

/-- Service discovery (lines 163-175): an explicit `--service` is used
directly; else list all services on the cluster and require exactly one. -/
def discoverService (w : World) (region cluster : String) (f : Flags) :
    Except ScriptErr String × List ReadCall :=
  if f.service ≠ "" then (Except.ok f.service, [])
  else
    let ss := w.ecsServices region cluster
    let t := [ReadCall.ecsListServices region cluster]
    if isNoneText ss then (Except.error ⟨2, noServicesMsg⟩, t)
    else if ss.length ≠ 1 then (Except.error ⟨2, multiServicesMsg⟩, t)
    else (Except.ok (ss.headD ""), t)

/-- Final step of ECS discovery (lines 177-187): the chosen service's
awsvpc security groups, of which exactly one is required. -/
def ecsSgOfService (w : World) (region cluster service : String)
    (t : List ReadCall) : Except ScriptErr String × List ReadCall :=
  let sgs := w.ecsServiceSGs region cluster service
  let tt := t ++ [ReadCall.ecsDescribeServices region cluster service]
  if isNoneText sgs then (Except.error ⟨2, noSgOnServiceMsg⟩, tt)
  else if sgs.length ≠ 1 then (Except.error ⟨2, multiSgMsg⟩, tt)
  else (Except.ok (sgs.headD ""), tt)

/-- Service-then-security-group part of ECS discovery, run on a chosen
cluster with the read calls `t1` already issued. -/
def ecsServiceSgStep (w : World) (region cluster : String)
    (t1 : List ReadCall) (f : Flags) : Except ScriptErr String × List ReadCall :=
  match discoverService w region cluster f with
  | (Except.error e, t2) => (Except.error e, t1 ++ t2)
  | (Except.ok service, t2) => ecsSgOfService w region cluster service (t1 ++ t2)

/-- Security-group resolution (lines 130-188): an explicit `--sg` skips
discovery; else IP-based discovery when a target IP is known; else ECS
discovery (cluster, then service, then the service's awsvpc security
groups, requiring exactly one at each step). -/
def resolveSgT (w : World) (region : String) (f : Flags) :
    Except ScriptErr String × List ReadCall :=
  if f.sg_id ≠ "" then (Except.ok f.sg_id, [])
  else if f.target_ip ≠ "" then
    (sgByIp w region f.target_ip,
     [ReadCall.describeNetworkInterfaces region f.target_ip])
  else
    match discoverCluster w region f with
    | (Except.error e, t1) => (Except.error e, t1)
    | (Except.ok cluster, t1) => ecsServiceSgStep w region cluster t1 f

/-! Port resolution (lines 190-204). -/

/-- The `FromPort` values of the security group's ingress rules matching
the JMESPath filter of line 192: same protocol, `FromPort == ToPort`, and
at least one attached `IpRanges` entry.  Note the query collects one entry
per matching rule, not per distinct port value. -/
def qualifyingPorts (perms : List IpPermission) (protocol : String) : List Int :=
  (perms.filter (fun q =>
    q.ipProtocol == protocol && q.fromPort == q.toPort && 0 < q.ipRanges.length)).map
    (fun q => q.fromPort)

/-- Port resolution: an explicit `--port` is used directly; else the
qualifying rules of the resolved group are collected and exactly one is
required — empty output is "No matching rules", more than one entry is
"Multiple ports". -/
def resolvePortT (w : World) (region sg : String) (f : Flags) :
    Except ScriptErr String × List ReadCall :=
  if f.port ≠ "" then (Except.ok f.port, [])
  else
    let ports := qualifyingPorts (w.sgPermissions region sg) f.protocol
    let t := [ReadCall.describeSecurityGroups region sg]
    if ports.isEmpty then (Except.error ⟨2, noRulesMsg f.protocol⟩, t)
    else if ports.length ≠ 1 then (Except.error ⟨2, multiPortsMsg f.protocol⟩, t)
    else (Except.ok (toString (ports.headD 0)), t)

/-! Idempotent rule authorization (lines 206-218). -/

/-- The exact-match test of the existing-rule query (line 207): same
protocol, `FromPort` and `ToPort` both equal to the resolved port, and an
`IpRanges` entry whose `CidrIp` equals the resolved CIDR. -/
def matchesRule (q : IpPermission) (protocol : String) (port : Int)
    (cidr : String) : Bool :=
  q.ipProtocol == protocol && q.fromPort == port && q.toPort == port &&
    q.ipRanges.any (fun r => r.cidrIp == cidr)

/-- Whether the group already contains an exactly matching ingress rule. -/
def hasMatching (perms : List IpPermission) (protocol : String) (port : Int)
    (cidr : String) : Bool :=
  perms.any (fun q => matchesRule q protocol port cidr)

/-- The number of exactly matching ingress rules in the group. -/
def countMatching (perms : List IpPermission) (protocol : String) (port : Int)
    (cidr : String) : Nat :=
  perms.countP (fun q => matchesRule q protocol port cidr)

/-- Modelled from the spec: the cloud provider is an external collaborator
(spec section 6), so the state transition of a successful
`authorize-security-group-ingress` call is modelled here rather than read
from src/ — the provider records the submitted ingress rule (protocol,
single port, one CIDR range with description) in the named group of the
named region (spec section 4.5). -/
def applyAuthorize (w : World) (region sg protocol : String) (port : Int)
    (cidr desc : String) : World :=
  { w with sgPermissions := fun r g =>
      if r = region ∧ g = sg then
        w.sgPermissions r g ++
          [{ ipProtocol := protocol, fromPort := port, toPort := port,
             ipRanges := [{ cidrIp := cidr, description := desc }] }]
      else w.sgPermissions r g }

/-- Rule Authorizer (lines 206-218), taking the fully resolved inputs: the
existing-rule query is issued; when an exact match exists the script prints
"already allowed" and exits 0 without any mutation; otherwise the single
authorize-ingress mutation is issued and the script prints the "Added"
message.  A port string that is not a numeric literal makes the embedded
JMESPath query of line 207 fail, which `set -e` propagates as a fatal
non-zero exit before any mutation. -/
def ruleAuthorizer (w : World) (region sg protocol port cidr desc : String) :
    RunResult :=
  match portLiteral? port with
  | none =>
      { exitCode := 255, message := "Invalid port value " ++ port ++ ".",
        trace := [ExtCall.read (ReadCall.describeSecurityGroups region sg)],
        world := w }
  | some p =>
      if hasMatching (w.sgPermissions region sg) protocol p cidr then
        { exitCode := 0, message := alreadyAllowedMsg cidr protocol port sg,
          trace := [ExtCall.read (ReadCall.describeSecurityGroups region sg)],
          world := w }
      else
        { exitCode := 0, message := addedMsg cidr sg protocol port region,
          trace := [ExtCall.read (ReadCall.describeSecurityGroups region sg),
                    ExtCall.authorizeIngress region sg protocol p cidr desc],
          world := applyAuthorize w region sg protocol p cidr desc }

/-! The whole script, assembled in the source's order: URL parsing, region,
CIDR, security group, port, then the idempotent authorization. -/

/-- Final stage: run the Rule Authorizer and prepend the accumulated
read-only trace. -/
def scriptFinish (w : World) (t : List ReadCall)
    (region sg protocol port cidr desc : String) : RunResult :=
  let r := ruleAuthorizer w region sg protocol port cidr desc
  { r with trace := t.map ExtCall.read ++ r.trace }

/-- Port stage of the script: resolve the port, then finish. -/
def scriptPortStage (w : World) (t : List ReadCall) (region cidr sg : String)
    (f : Flags) : RunResult :=
  match resolvePortT w region sg f with
  | (Except.error e, t4) =>
      { exitCode := e.code, message := e.msg,
        trace := (t ++ t4).map ExtCall.read, world := w }
  | (Except.ok port, t4) =>
      scriptFinish w (t ++ t4) region sg f.protocol port cidr f.description

/-- Security-group stage of the script: resolve the group, then the port. -/
def scriptSgStage (w : World) (t : List ReadCall) (region cidr : String)
    (f : Flags) : RunResult :=
  match resolveSgT w region f with
  | (Except.error e, t3) =>
      { exitCode := e.code, message := e.msg,
        trace := (t ++ t3).map ExtCall.read, world := w }
  | (Except.ok sg, t3) => scriptPortStage w (t ++ t3) region cidr sg f

/-- CIDR stage of the script: resolve the CIDR, then the security group. -/
def scriptCidrStage (w : World) (t : List ReadCall) (region : String)
    (f : Flags) : RunResult :=
  match resolveCidrT w f with
  | (Except.error e, t2) =>
      { exitCode := e.code, message := e.msg,
        trace := (t ++ t2).map ExtCall.read, world := w }
  | (Except.ok cidr, t2) => scriptSgStage w (t ++ t2) region cidr f

/-- The whole script: parse the URL, resolve the region, then run the
remaining stages in the source's order. -/
def runScript (w : World) (f : Flags) : RunResult :=
  let pf := parseUrl w f
  match resolveRegionT w pf.1 with
  | (Except.error e, t1) =>
      { exitCode := e.code, message := e.msg,
        trace := (pf.2 ++ t1).map ExtCall.read, world := w }
  | (Except.ok region, t1) => scriptCidrStage w (pf.2 ++ t1) region pf.1

/-- Mutation discipline of a run outcome relative to the starting world:
at most one mutating call, no mutating call and an unchanged world on a
failing exit, and an unchanged world whenever no mutating call was
issued. -/
def mutationSafe (w : World) (r : RunResult) : Prop :=
  (r.trace.filter isMutation).length ≤ 1 ∧
  (r.exitCode ≠ 0 → r.trace.filter isMutation = [] ∧ r.world = w) ∧
  (r.trace.filter isMutation = [] → r.world = w)

/-! Concrete worlds used by the witnesses and the counterexample. -/

/-- A world with one matching region, one cluster, one service and one
security group holding a single single-port tcp rule. -/
def wEx : World where
  regions := ["us-east-1", "ap-southeast-5"]
  eniIds := fun r ip =>
    if r = "ap-southeast-5" ∧ ip = "43.216.215.179" then ["eni-1"] else []
  eniFirstGroups := fun r ip =>
    if r = "ap-southeast-5" ∧ ip = "43.216.215.179" then ["sg-0abc"] else []
  ecsClusters := fun r => if r = "ap-southeast-5" then ["c1"] else []
  ecsServices := fun r c =>
    if r = "ap-southeast-5" ∧ c = "c1" then ["s1"] else []
  ecsServiceSGs := fun r c s =>
    if r = "ap-southeast-5" ∧ c = "c1" ∧ s = "s1" then ["sg-0abc"] else []
  sgPermissions := fun r g =>
    if r = "ap-southeast-5" ∧ g = "sg-0abc" then
      [{ ipProtocol := "tcp", fromPort := 8080, toPort := 8080,
         ipRanges := [{ cidrIp := "1.2.3.4/32", description := "d" }] }]
    else []
  awsRegion := ""
  awsDefaultRegion := ""
  configRegion := ""
  checkipBody := "198.51.100.7\n"
  dnsFirstAddr := fun h =>
    if h = "svc.example.com" then "43.216.215.179" else ""

/-- A world where the public IP `9.9.9.9` is associated with a network
interface in two distinct regions. -/
def wAmb : World :=
  { wEx with
    eniIds := fun _ ip => if ip = "9.9.9.9" then ["eni-a"] else [] }

/-- A world whose security group `sg-1` in region `r1` carries two distinct
single-port tcp rules on the same port 8080 (one distinct port value, two
qualifying rules). -/
def wPortDup : World :=
  { wEx with
    sgPermissions := fun r g =>
      if r = "r1" ∧ g = "sg-1" then
        [{ ipProtocol := "tcp", fromPort := 8080, toPort := 8080,
           ipRanges := [{ cidrIp := "1.2.3.4/32", description := "a" }] },
         { ipProtocol := "tcp", fromPort := 8080, toPort := 8080,
           ipRanges := [{ cidrIp := "5.6.7.8/32", description := "b" }] }]
      else [] }

/-- A world where IP-based discovery returns two security groups for the
IP `7.7.7.7`. -/
def wMultiSg : World :=
  { wEx with
    eniFirstGroups := fun _ ip =>
      if ip = "7.7.7.7" then ["sg-1", "sg-2"] else [] }

/-! Helper lemmas. -/

/-- A trace consisting only of read calls contains no mutation. -/
theorem filter_isMutation_map_read (l : List ReadCall) :
    (l.map ExtCall.read).filter isMutation = [] := by
  induction l with
  | nil => rfl
  | cons a t ih => simp [List.filter_cons, isMutation, ih]

/-- Port seeding does not touch the target IP. -/
theorem seedPort_target_ip (f : Flags) (p : String) :
    (seedPort f p).target_ip = f.target_ip := by
  unfold seedPort; split <;> rfl

/-- Port seeding does not touch the region flag. -/
theorem seedPort_region (f : Flags) (p : String) :
    (seedPort f p).region = f.region := by
  unfold seedPort; split <;> rfl

/-- Target-IP seeding does not touch the port. -/
theorem seedTargetIp_port (w : World) (f : Flags) (h : String) :
    ((seedTargetIp w f h).1).port = f.port := by
  unfold seedTargetIp; split <;> [skip; rfl]
  split <;> [rfl; skip]
  split <;> rfl

/-- Target-IP seeding does not touch the region flag. -/
theorem seedTargetIp_region (w : World) (f : Flags) (h : String) :
    ((seedTargetIp w f h).1).region = f.region := by
  unfold seedTargetIp; split <;> [skip; rfl]
  split <;> [rfl; skip]
  split <;> rfl

/-- Target-IP seeding keeps an already known target IP. -/
theorem seedTargetIp_keeps (w : World) (f : Flags) (h : String)
    (ht : f.target_ip ≠ "") : ((seedTargetIp w f h).1).target_ip = f.target_ip := by
  unfold seedTargetIp
  rw [if_neg]
  intro hc
  exact ht hc.1

/-- URL parsing keeps an already known target IP. -/
theorem parseUrl_keeps_target_ip (w : World) (f : Flags)
    (ht : f.target_ip ≠ "") : ((parseUrl w f).1).target_ip = f.target_ip := by
  unfold parseUrl
  split
  · rfl
  · rw [seedTargetIp_keeps, seedPort_target_ip]
    rw [seedPort_target_ip]; exact ht

/-- URL parsing does not touch the region flag. -/
theorem parseUrl_keeps_region (w : World) (f : Flags) :
    ((parseUrl w f).1).region = f.region := by
  unfold parseUrl
  split
  · rfl
  · rw [seedTargetIp_region, seedPort_region]

/-- URL parsing keeps an explicitly given port. -/
theorem parseUrl_keeps_port (w : World) (f : Flags) (hp : f.port ≠ "") :
    ((parseUrl w f).1).port = f.port := by
  unfold parseUrl
  split
  · rfl
  · rw [seedTargetIp_port]
    unfold seedPort
    rw [if_neg]
    intro hc
    exact hp hc.1

/-! Claim theorems. -/

/-- C10: an explicitly supplied `--target-ip` is never overwritten by URL
parsing — whenever the flag is non-empty, the flags emerging from the URL
section (which are the ones later stages use for region inference and
security-group discovery) carry exactly the flag's target IP, whatever the
URL's host is. -/
theorem targetIp_not_overwritten (w : World) (f : Flags)
    (ht : f.target_ip ≠ "") :
    ((parseUrl w f).1).target_ip = f.target_ip :=
  parseUrl_keeps_target_ip w f ht

/-- Witness for C10 at a concrete input: the URL host does not displace the
explicit target IP. -/
theorem targetIp_not_overwritten_witness :
    ((parseUrl wEx
        { target_ip := "9.9.9.9", url := "http://43.216.215.179:8080/" }).1).target_ip =
      "9.9.9.9" :=
  targetIp_not_overwritten wEx
    { target_ip := "9.9.9.9", url := "http://43.216.215.179:8080/" } (by decide)

/-- C3: URL parsing — on `http://43.216.215.179:8080/` with no `--port` the
target IP becomes `43.216.215.179` and the port `8080`; in general a
dotted-quad host becomes the target IP directly, a non-dotted-quad host is
resolved via DNS to its first address, and the URL's port seeds the port
value only when `--port` was not given. -/
theorem parseUrl_spec (w : World) (f : Flags) :
    ((parseUrl w { url := "http://43.216.215.179:8080/" }).1.target_ip =
        "43.216.215.179" ∧
      (parseUrl w { url := "http://43.216.215.179:8080/" }).1.port = "8080") ∧
    (f.url ≠ "" → f.target_ip = "" → (urlHostPort f.url).1 ≠ "" →
      isDottedQuad (urlHostPort f.url).1 = true →
      ((parseUrl w f).1).target_ip = (urlHostPort f.url).1) ∧
    (f.url ≠ "" → f.target_ip = "" → (urlHostPort f.url).1 ≠ "" →
      isDottedQuad (urlHostPort f.url).1 = false →
      w.dnsFirstAddr (urlHostPort f.url).1 ≠ "" →
      ((parseUrl w f).1).target_ip = w.dnsFirstAddr (urlHostPort f.url).1) ∧
    (f.url ≠ "" → f.port = "" → (urlHostPort f.url).2 ≠ "" →
      ((parseUrl w f).1).port = (urlHostPort f.url).2) ∧
    (f.port ≠ "" → ((parseUrl w f).1).port = f.port) := by
  refine ⟨⟨rfl, rfl⟩, ?_, ?_, ?_, parseUrl_keeps_port w f⟩
  · intro hu ht hh hd
    unfold parseUrl
    rw [if_neg hu]
    unfold seedTargetIp
    rw [if_pos ⟨by rw [seedPort_target_ip]; exact ht, hh⟩, if_pos hd]
  · intro hu ht hh hd hdns
    unfold parseUrl
    rw [if_neg hu]
    unfold seedTargetIp
    rw [if_pos ⟨by rw [seedPort_target_ip]; exact ht, hh⟩,
      if_neg (by simp [hd]), if_pos hdns]
  · intro hu hp hup
    unfold parseUrl
    rw [if_neg hu, seedTargetIp_port]
    unfold seedPort
    rw [if_pos ⟨hp, hup⟩]

/-- Witness for C3 at a concrete input: a DNS-resolved host seeds the
target IP and the URL port seeds the port. -/
theorem parseUrl_spec_witness :
    ((parseUrl wEx { url := "http://svc.example.com:9090/x" }).1).target_ip =
        "43.216.215.179" ∧
      ((parseUrl wEx { url := "http://svc.example.com:9090/x" }).1).port =
        "9090" := by
  have h := parseUrl_spec wEx { url := "http://svc.example.com:9090/x" }
  refine ⟨?_, ?_⟩
  · rw [h.2.2.1 (by decide) rfl (by decide) (by decide) (by decide)]; rfl
  · rw [h.2.2.2.1 (by decide) rfl (by decide)]; rfl

/-- C2: the Target Resolver yields exactly one CIDR — an explicit `--cidr`
verbatim; else an explicit `--ip` with `/32` appended; else the
auto-detected public IP (checkip response, whitespace stripped) with `/32`
appended, and an empty auto-detection is a fatal exit-2 error. -/
theorem resolveCidr_spec (w : World) (f : Flags) :
    (f.cidr ≠ "" → (resolveCidrT w f).1 = Except.ok f.cidr) ∧
    (f.cidr = "" → f.ip ≠ "" →
      (resolveCidrT w f).1 = Except.ok (f.ip ++ "/32")) ∧
    (f.cidr = "" → f.ip = "" → stripSpace w.checkipBody ≠ "" →
      resolveCidrT w f =
        (Except.ok (stripSpace w.checkipBody ++ "/32"), [ReadCall.curlCheckip])) ∧
    (f.cidr = "" → f.ip = "" → stripSpace w.checkipBody = "" →
      resolveCidrT w f =
        (Except.error ⟨2, failedIpMsg⟩, [ReadCall.curlCheckip])) := by
  refine ⟨?_, ?_, ?_, ?_⟩
  · intro hc
    simp [resolveCidrT, hc]
  · intro hc hi
    simp [resolveCidrT, hc, hi]
  · intro hc hi hs
    simp [resolveCidrT, hc, hi, hs]
  · intro hc hi hs
    simp [resolveCidrT, hc, hi, hs]

/-- Witness for C2 at concrete inputs: explicit CIDR round-trips verbatim,
and auto-detection appends `/32` to the stripped checkip response. -/
theorem resolveCidr_spec_witness :
    (resolveCidrT wEx { cidr := "203.0.113.10/32" }).1 =
        Except.ok "203.0.113.10/32" ∧
      resolveCidrT wEx ({} : Flags) =
        (Except.ok "198.51.100.7/32", [ReadCall.curlCheckip]) := by
  refine ⟨(resolveCidr_spec wEx { cidr := "203.0.113.10/32" }).1 (by decide), ?_⟩
  rw [(resolveCidr_spec wEx ({} : Flags)).2.2.1 rfl rfl (by decide)]
  rfl

/-- Behaviour of the environment/config fallback of the Region Resolver. -/
theorem fallbackRegion_spec (w : World) (t : List ReadCall) :
    (w.awsRegion ≠ "" → (fallbackRegion w t).1 = Except.ok w.awsRegion) ∧
    (w.awsRegion = "" → w.awsDefaultRegion ≠ "" →
      (fallbackRegion w t).1 = Except.ok w.awsDefaultRegion) ∧
    (w.awsRegion = "" → w.awsDefaultRegion = "" → w.configRegion ≠ "" →
      (fallbackRegion w t).1 = Except.ok w.configRegion) ∧
    (w.awsRegion = "" → w.awsDefaultRegion = "" → w.configRegion = "" →
      (fallbackRegion w t).1 = Except.error ⟨2, regionNotSetMsg⟩) := by
  refine ⟨?_, ?_, ?_, ?_⟩
  · intro h1
    simp [fallbackRegion, h1]
  · intro h1 h2
    simp [fallbackRegion, h1, h2]
  · intro h1 h2 h3
    simp [fallbackRegion, h1, h2, h3]
  · intro h1 h2 h3
    simp [fallbackRegion, h1, h2, h3]

/-- C4: the region is resolved in this exact priority order — explicit
flag; else the unique region whose network interfaces match the target IP
(when a target IP is known and exactly one region matches); else
`AWS_REGION`, then `AWS_DEFAULT_REGION`; else `aws configure get region`;
else a fatal "region not set" error with exit 2. -/
theorem resolveRegion_priority (w : World) (f : Flags) :
    (f.region ≠ "" → (resolveRegionT w f).1 = Except.ok f.region) ∧
    (f.region = "" → f.target_ip ≠ "" →
      ∀ r, regionMatches w f.target_ip = [r] →
        (resolveRegionT w f).1 = Except.ok r) ∧
    (f.region = "" → (f.target_ip = "" ∨ regionMatches w f.target_ip = []) →
      ((w.awsRegion ≠ "" → (resolveRegionT w f).1 = Except.ok w.awsRegion) ∧
        (w.awsRegion = "" → w.awsDefaultRegion ≠ "" →
          (resolveRegionT w f).1 = Except.ok w.awsDefaultRegion) ∧
        (w.awsRegion = "" → w.awsDefaultRegion = "" → w.configRegion ≠ "" →
          (resolveRegionT w f).1 = Except.ok w.configRegion) ∧
        (w.awsRegion = "" → w.awsDefaultRegion = "" → w.configRegion = "" →
          (resolveRegionT w f).1 = Except.error ⟨2, regionNotSetMsg⟩))) := by
  refine ⟨?_, ?_, ?_⟩
  · intro hr
    simp [resolveRegionT, hr]
  · intro hr ht r hm
    simp [resolveRegionT, hr, ht, hm]
  · intro hr hor
    rcases hor with h0 | h0
    · have hfb := fallbackRegion_spec w []
      simp only [resolveRegionT, hr, h0]
      simpa using hfb
    · by_cases ht : f.target_ip = ""
      · have hfb := fallbackRegion_spec w []
        simp only [resolveRegionT, hr, ht]
        simpa using hfb
      · have hfb := fallbackRegion_spec w
          (ReadCall.describeRegions ::
            w.regions.map (fun r => ReadCall.describeNetworkInterfaces r f.target_ip))
        simp only [resolveRegionT, hr]
        simp only [h0, List.length_nil]
        simpa [ht] using hfb

/-- Witness for C4 at concrete inputs: the explicit flag wins, and with no
flag, no target IP and no environment the run fails with "region not set". -/
theorem resolveRegion_priority_witness :
    (resolveRegionT wEx { region := "eu-west-1" }).1 =
        Except.ok "eu-west-1" ∧
      (resolveRegionT wEx ({} : Flags)).1 =
        Except.error ⟨2, regionNotSetMsg⟩ := by
  refine ⟨(resolveRegion_priority wEx { region := "eu-west-1" }).1 (by decide), ?_⟩
  exact ((resolveRegion_priority wEx ({} : Flags)).2.2 rfl (Or.inl rfl)).2.2.2
    rfl rfl rfl

/-- Ambiguous-region behaviour of the Region Resolver at the pair level:
with no explicit region, a known target IP and more than one matching
region, the resolver returns the exit-2 ambiguity error together with the
read-only calls it issued. -/
theorem resolveRegionT_ambiguous (w : World) (f : Flags)
    (hr : f.region = "") (ht : f.target_ip ≠ "")
    (hm : 1 < (regionMatches w f.target_ip).length) :
    resolveRegionT w f =
      (Except.error ⟨2, ambiguousRegionMsg f.target_ip⟩,
        ReadCall.describeRegions ::
          w.regions.map (fun r => ReadCall.describeNetworkInterfaces r f.target_ip)) := by
  simp only [resolveRegionT, hr]
  rw [if_neg (by simp), if_pos ht, if_neg (by omega), if_pos hm]

/-- C5: with no `--region` and a target public IP found in more than one
region, the run exits 2 with the ambiguity message naming `--region` and
`--sg`, its trace consists exactly of the URL-parsing and region-inference
read calls (no later resolution step runs), no mutation is issued, and the
world is unchanged. -/
theorem ambiguousRegion_aborts (w : World) (f : Flags)
    (hr : f.region = "") (ht : f.target_ip ≠ "")
    (hm : 1 < (regionMatches w f.target_ip).length) :
    (runScript w f).exitCode = 2 ∧
    (runScript w f).message = ambiguousRegionMsg f.target_ip ∧
    (runScript w f).trace =
      ((parseUrl w f).2 ++ (resolveRegionT w (parseUrl w f).1).2).map ExtCall.read ∧
    (runScript w f).trace.filter isMutation = [] ∧
    (runScript w f).world = w := by
  have h1 : ((parseUrl w f).1).region = "" := by
    rw [parseUrl_keeps_region]; exact hr
  have h2 : ((parseUrl w f).1).target_ip = f.target_ip :=
    parseUrl_keeps_target_ip w f ht
  have e := resolveRegionT_ambiguous w (parseUrl w f).1
    (by rw [h1]) (by rw [h2]; exact ht) (by rw [h2]; exact hm)
  rw [h2] at e
  simp only [runScript, e]
  simp [filter_isMutation_map_read, isMutation]

/-- Witness for C5 at a concrete input: the IP `9.9.9.9` matches a network
interface in both regions of `wAmb`, and the run aborts with exit 2. -/
theorem ambiguousRegion_aborts_witness :
    (runScript wAmb { target_ip := "9.9.9.9" }).exitCode = 2 ∧
      (runScript wAmb { target_ip := "9.9.9.9" }).message =
        ambiguousRegionMsg "9.9.9.9" ∧
      (runScript wAmb { target_ip := "9.9.9.9" }).world = wAmb := by
  have h := ambiguousRegion_aborts wAmb { target_ip := "9.9.9.9" }
    rfl (by decide) (by decide)
  exact ⟨h.1, h.2.1, h.2.2.2.2⟩

/-- A list with at least two elements is never empty or the literal
`None`. -/
theorem isNoneText_of_two_le (l : List String) (h : 2 ≤ l.length) :
    isNoneText l = false := by
  cases l with
  | nil => simp at h
  | cons a t =>
    cases t with
    | nil => simp at h
    | cons b t2 => simp [isNoneText]

/-- C6: with no `--sg` and a known target IP, the Security-Group Locator
uses the groups of the first matching network interface — an empty result
is a fatal exit-2 "no security group found" error, more than one group is
a fatal exit-2 error naming `--sg`, and a single group is used. -/
theorem sgByIp_spec (w : World) (region : String) (f : Flags)
    (hsg : f.sg_id = "") (ht : f.target_ip ≠ "") :
    (isNoneText (w.eniFirstGroups region f.target_ip) = true →
      (resolveSgT w region f).1 =
        Except.error ⟨2, noSgForIpMsg f.target_ip⟩) ∧
    (∀ g, w.eniFirstGroups region f.target_ip = [g] → g ≠ "None" →
      (resolveSgT w region f).1 = Except.ok g) ∧
    (2 ≤ (w.eniFirstGroups region f.target_ip).length →
      (resolveSgT w region f).1 =
        Except.error ⟨2, multiSgForIpMsg f.target_ip⟩) := by
  have hred : (resolveSgT w region f).1 = sgByIp w region f.target_ip := by
    simp [resolveSgT, hsg, ht]
  refine ⟨?_, ?_, ?_⟩
  · intro hn
    rw [hred]
    simp [sgByIp, hn]
  · intro g hg hgn
    rw [hred]
    simp [sgByIp, hg, isNoneText, hgn]
  · intro h2
    rw [hred]
    simp [sgByIp, isNoneText_of_two_le _ h2]
    omega

/-- Witness for C6 at concrete inputs: a single discovered group is used,
and two discovered groups abort with the exit-2 message naming `--sg`. -/
theorem sgByIp_spec_witness :
    (resolveSgT wEx "ap-southeast-5" { target_ip := "43.216.215.179" }).1 =
        Except.ok "sg-0abc" ∧
      (resolveSgT wMultiSg "ap-southeast-5" { target_ip := "7.7.7.7" }).1 =
        Except.error ⟨2, multiSgForIpMsg "7.7.7.7"⟩ := by
  refine ⟨?_, ?_⟩
  · exact (sgByIp_spec wEx "ap-southeast-5" { target_ip := "43.216.215.179" }
      rfl (by decide)).2.1 "sg-0abc" (by decide) (by decide)
  · exact (sgByIp_spec wMultiSg "ap-southeast-5" { target_ip := "7.7.7.7" }
      rfl (by decide)).2.2 (by decide)

/-- Cluster discovery reads only the `cluster` flag. -/
theorem discoverCluster_congr (w : World) (region : String) (f g : Flags)
    (h : f.cluster = g.cluster) :
    discoverCluster w region f = discoverCluster w region g := by
  unfold discoverCluster; rw [h]

/-- Service discovery reads only the `service` flag. -/
theorem discoverService_congr (w : World) (region cluster : String)
    (f g : Flags) (h : f.service = g.service) :
    discoverService w region cluster f = discoverService w region cluster g := by
  unfold discoverService; rw [h]

/-- The outcome of the final ECS step does not depend on the accumulated
trace. -/
theorem ecsSgOfService_fst (w : World) (region cluster service : String)
    (t1 t2 : List ReadCall) :
    (ecsSgOfService w region cluster service t1).1 =
      (ecsSgOfService w region cluster service t2).1 := by
  simp only [ecsSgOfService]
  split_ifs <;> rfl

/-- The outcome of the service-then-group step depends only on the
`service` flag, not on the accumulated trace. -/
theorem ecsServiceSgStep_fst (w : World) (region cluster : String)
    (t1 t2 : List ReadCall) (f g : Flags) (h : f.service = g.service) :
    (ecsServiceSgStep w region cluster t1 f).1 =
      (ecsServiceSgStep w region cluster t2 g).1 := by
  unfold ecsServiceSgStep
  rw [discoverService_congr w region cluster f g h]
  rcases hds : discoverService w region cluster g with ⟨r, t⟩
  cases r with
  | error e => rfl
  | ok s => exact ecsSgOfService_fst w region cluster s (t1 ++ t) (t2 ++ t)

/-- With no explicit `--sg` and no target IP, security-group resolution is
ECS discovery. -/
theorem resolveSgT_ecs (w : World) (region : String) (f : Flags)
    (hsg : f.sg_id = "") (ht : f.target_ip = "") :
    resolveSgT w region f =
      match discoverCluster w region f with
      | (Except.error e, t1) => (Except.error e, t1)
      | (Except.ok cluster, t1) => ecsServiceSgStep w region cluster t1 f := by
  unfold resolveSgT
  rw [if_neg (by simp [hsg]), if_neg (by simp [ht])]

/-- C7: with neither `--sg` nor a target IP, ECS discovery requires exactly
one cluster (exit-2 messages naming `--cluster`/`--sg` otherwise), then
exactly one service on the chosen cluster, then exactly one security group
in the chosen service's network configuration; a discovered singleton is
used exactly as if it had been passed explicitly. -/
theorem ecsDiscovery_exactlyOne (w : World) (region : String) (f : Flags)
    (hsg : f.sg_id = "") (ht : f.target_ip = "") :
    (f.cluster = "" → isNoneText (w.ecsClusters region) = true →
      (resolveSgT w region f).1 = Except.error ⟨2, noClustersMsg⟩) ∧
    (f.cluster = "" → isNoneText (w.ecsClusters region) = false →
      (w.ecsClusters region).length ≠ 1 →
      (resolveSgT w region f).1 = Except.error ⟨2, multiClustersMsg⟩) ∧
    (∀ c, f.cluster = "" → w.ecsClusters region = [c] → c ≠ "None" → c ≠ "" →
      (resolveSgT w region f).1 =
        (resolveSgT w region { f with cluster := c }).1) ∧
    (f.cluster ≠ "" → f.service = "" →
      isNoneText (w.ecsServices region f.cluster) = true →
      (resolveSgT w region f).1 = Except.error ⟨2, noServicesMsg⟩) ∧
    (f.cluster ≠ "" → f.service = "" →
      isNoneText (w.ecsServices region f.cluster) = false →
      (w.ecsServices region f.cluster).length ≠ 1 →
      (resolveSgT w region f).1 = Except.error ⟨2, multiServicesMsg⟩) ∧
    (∀ s, f.cluster ≠ "" → f.service = "" →
      w.ecsServices region f.cluster = [s] → s ≠ "None" → s ≠ "" →
      (resolveSgT w region f).1 =
        (resolveSgT w region { f with service := s }).1) ∧
    (f.cluster ≠ "" → f.service ≠ "" →
      isNoneText (w.ecsServiceSGs region f.cluster f.service) = true →
      (resolveSgT w region f).1 = Except.error ⟨2, noSgOnServiceMsg⟩) ∧
    (f.cluster ≠ "" → f.service ≠ "" →
      isNoneText (w.ecsServiceSGs region f.cluster f.service) = false →
      (w.ecsServiceSGs region f.cluster f.service).length ≠ 1 →
      (resolveSgT w region f).1 = Except.error ⟨2, multiSgMsg⟩) ∧
    (∀ g, f.cluster ≠ "" → f.service ≠ "" →
      w.ecsServiceSGs region f.cluster f.service = [g] → g ≠ "None" →
      (resolveSgT w region f).1 = Except.ok g) := by
  refine ⟨?_, ?_, ?_, ?_, ?_, ?_, ?_, ?_, ?_⟩
  · intro hc hnone
    simp [resolveSgT, hsg, ht, discoverCluster, hc, hnone]
  · intro hc hnone hlen
    simp [resolveSgT, hsg, ht, discoverCluster, hc, hnone, hlen]
  · intro c hc hcl hcn hcne
    have e1 : discoverCluster w region f =
        (Except.ok c, [ReadCall.ecsListClusters region]) := by
      simp [discoverCluster, hc, hcl, isNoneText, hcn]
    have e2 : discoverCluster w region { f with cluster := c } =
        (Except.ok c, []) := by
      simp [discoverCluster, hcne]
    rw [resolveSgT_ecs w region f hsg ht,
      resolveSgT_ecs w region { f with cluster := c } hsg ht, e1, e2]
    exact ecsServiceSgStep_fst w region c _ _ f _ rfl
  · intro hc hs hnone
    simp [resolveSgT, hsg, ht, discoverCluster, hc, ecsServiceSgStep,
      discoverService, hs, ecsSgOfService, hnone]
  · intro hc hs hnone hlen
    simp [resolveSgT, hsg, ht, discoverCluster, hc, ecsServiceSgStep,
      discoverService, hs, ecsSgOfService, hnone, hlen]
  · intro s hc hs hsl hsn hsne
    have ec : discoverCluster w region f = (Except.ok f.cluster, []) := by
      simp [discoverCluster, hc]
    have ec2 : discoverCluster w region { f with service := s } =
        (Except.ok f.cluster, []) := by
      rw [discoverCluster_congr w region { f with service := s } f rfl]
      exact ec
    have e1 : discoverService w region f.cluster f =
        (Except.ok s, [ReadCall.ecsListServices region f.cluster]) := by
      simp [discoverService, hs, hsl, isNoneText, hsn]
    have e2 : discoverService w region f.cluster { f with service := s } =
        (Except.ok s, []) := by
      simp [discoverService, hsne]
    rw [resolveSgT_ecs w region f hsg ht,
      resolveSgT_ecs w region { f with service := s } hsg ht, ec, ec2]
    show (ecsServiceSgStep w region f.cluster [] f).1 =
      (ecsServiceSgStep w region f.cluster [] { f with service := s }).1
    unfold ecsServiceSgStep
    rw [e1, e2]
    exact ecsSgOfService_fst w region f.cluster s _ _
  · intro hc hs hnone
    simp [resolveSgT, hsg, ht, discoverCluster, hc, ecsServiceSgStep,
      discoverService, hs, ecsSgOfService, hnone]
  · intro hc hs hnone hlen
    simp [resolveSgT, hsg, ht, discoverCluster, hc, ecsServiceSgStep,
      discoverService, hs, ecsSgOfService, hnone, hlen]
  · intro g hc hs hgl hgn
    simp [resolveSgT, hsg, ht, discoverCluster, hc, ecsServiceSgStep,
      discoverService, hs, ecsSgOfService, hgl, isNoneText, hgn]

/-- Witness for C7 at concrete inputs: zero clusters abort with the exit-2
message naming `--cluster`/`--sg`, and single-cluster/single-service
discovery reaches the service's single security group. -/
theorem ecsDiscovery_exactlyOne_witness :
    (resolveSgT wEx "other" ({} : Flags)).1 =
        Except.error ⟨2, noClustersMsg⟩ ∧
      (resolveSgT wEx "ap-southeast-5"
          { cluster := "c1", service := "s1" }).1 = Except.ok "sg-0abc" := by
  refine ⟨?_, ?_⟩
  · exact (ecsDiscovery_exactlyOne wEx "other" ({} : Flags) rfl rfl).1
      rfl (by decide)
  · exact (ecsDiscovery_exactlyOne wEx "ap-southeast-5"
      { cluster := "c1", service := "s1" } rfl rfl).2.2.2.2.2.2.2.2 "sg-0abc"
      (by decide) (by decide) (by decide) (by decide)

/-- Counterexample to C8 as stated: in `wPortDup` the security group
`sg-1` of region `r1` has two qualifying tcp rules on the same port, so
exactly one distinct port value qualifies, yet port resolution fails with
the "Multiple tcp ports found" error instead of resolving to 8080 — the
script counts qualifying rules, not distinct port values. -/
theorem resolvePort_distinct_counterexample :
    (qualifyingPorts (wPortDup.sgPermissions "r1" "sg-1") "tcp").dedup =
        [(8080 : Int)] ∧
      (resolvePortT wPortDup "r1" "sg-1" ({} : Flags)).1 =
        Except.error ⟨2, multiPortsMsg "tcp"⟩ := by
  constructor
  · rfl
  · rfl

/-- C8 (amended): with `--port` omitted, the script collects one entry per
qualifying rule of the resolved group (same protocol, from-port equal to
to-port, at least one CIDR range); an empty collection fails with the "no
matching rules" message, exactly one qualifying rule resolves to its port,
and two or more qualifying rules — even on the same port — fail with the
"multiple ports" message, all with exit 2. -/
theorem resolvePort_spec (w : World) (region sg : String) (f : Flags) :
    (f.port ≠ "" → (resolvePortT w region sg f).1 = Except.ok f.port) ∧
    (f.port = "" → qualifyingPorts (w.sgPermissions region sg) f.protocol = [] →
      (resolvePortT w region sg f).1 =
        Except.error ⟨2, noRulesMsg f.protocol⟩) ∧
    (f.port = "" → ∀ p : Int,
      qualifyingPorts (w.sgPermissions region sg) f.protocol = [p] →
      (resolvePortT w region sg f).1 = Except.ok (toString p)) ∧
    (f.port = "" →
      2 ≤ (qualifyingPorts (w.sgPermissions region sg) f.protocol).length →
      (resolvePortT w region sg f).1 =
        Except.error ⟨2, multiPortsMsg f.protocol⟩) := by
  refine ⟨?_, ?_, ?_, ?_⟩
  · intro hp
    simp [resolvePortT, hp]
  · intro hp hq
    simp [resolvePortT, hp, hq]
  · intro hp p hq
    simp [resolvePortT, hp, hq]
  · intro hp h2
    have hne : ¬(qualifyingPorts (w.sgPermissions region sg) f.protocol).isEmpty := by
      rw [List.isEmpty_iff_length_eq_zero]
      omega
    have hlen : (qualifyingPorts (w.sgPermissions region sg) f.protocol).length ≠ 1 := by
      omega
    simp [resolvePortT, hp, hne, hlen]

/-- Witness for the amended C8 at a concrete input: the single qualifying
tcp rule of `wEx` resolves the omitted port to 8080. -/
theorem resolvePort_spec_witness :
    (resolvePortT wEx "ap-southeast-5" "sg-0abc" ({} : Flags)).1 =
      Except.ok "8080" :=
  (resolvePort_spec wEx "ap-southeast-5" "sg-0abc" ({} : Flags)).2.2.1
    rfl 8080 (by decide)

/-- The rule submitted by the script matches its own exact-match test. -/
theorem matchesRule_new (protocol : String) (p : Int) (cidr desc : String) :
    matchesRule
      { ipProtocol := protocol, fromPort := p, toPort := p,
        ipRanges := [{ cidrIp := cidr, description := desc }] }
      protocol p cidr = true := by
  simp [matchesRule]

/-- Effect of the modelled authorize-ingress call on the targeted group. -/
theorem applyAuthorize_at (w : World) (region sg protocol : String) (p : Int)
    (cidr desc : String) :
    (applyAuthorize w region sg protocol p cidr desc).sgPermissions region sg =
      w.sgPermissions region sg ++
        [{ ipProtocol := protocol, fromPort := p, toPort := p,
           ipRanges := [{ cidrIp := cidr, description := desc }] }] := by
  simp [applyAuthorize]

/-- When an exactly matching rule exists, the Rule Authorizer reports
"already allowed", exits 0, issues only the read query and leaves the
world unchanged. -/
theorem ruleAuthorizer_existing (w : World)
    (region sg protocol port cidr desc : String) (p : Int)
    (hp : portLiteral? port = some p)
    (hm : hasMatching (w.sgPermissions region sg) protocol p cidr = true) :
    ruleAuthorizer w region sg protocol port cidr desc =
      { exitCode := 0, message := alreadyAllowedMsg cidr protocol port sg,
        trace := [ExtCall.read (ReadCall.describeSecurityGroups region sg)],
        world := w } := by
  unfold ruleAuthorizer
  rw [hp]
  simp [hm]

/-- When no exactly matching rule exists, the Rule Authorizer issues the
single authorize-ingress mutation and records the new rule. -/
theorem ruleAuthorizer_absent (w : World)
    (region sg protocol port cidr desc : String) (p : Int)
    (hp : portLiteral? port = some p)
    (hm : hasMatching (w.sgPermissions region sg) protocol p cidr = false) :
    ruleAuthorizer w region sg protocol port cidr desc =
      { exitCode := 0, message := addedMsg cidr sg protocol port region,
        trace := [ExtCall.read (ReadCall.describeSecurityGroups region sg),
                  ExtCall.authorizeIngress region sg protocol p cidr desc],
        world := applyAuthorize w region sg protocol p cidr desc } := by
  unfold ruleAuthorizer
  rw [hp]
  simp [hm]

/-- C1: the Rule Authorizer is idempotent for every resolved tuple
(security group, protocol, port, CIDR): when an exactly matching ingress
rule already exists the run reports "already allowed", exits 0 and mutates
nothing; and running it twice from a group holding at most one matching
rule leaves exactly one matching rule, the second run being a pure no-op
("already allowed", exit 0, no mutation, world unchanged). -/
theorem ruleAuthorizer_idempotent (w : World)
    (region sg protocol port cidr desc : String) (p : Int)
    (hp : portLiteral? port = some p)
    (hcount : countMatching (w.sgPermissions region sg) protocol p cidr ≤ 1) :
    (hasMatching (w.sgPermissions region sg) protocol p cidr = true →
      ruleAuthorizer w region sg protocol port cidr desc =
        { exitCode := 0, message := alreadyAllowedMsg cidr protocol port sg,
          trace := [ExtCall.read (ReadCall.describeSecurityGroups region sg)],
          world := w }) ∧
    countMatching
      ((ruleAuthorizer w region sg protocol port cidr desc).world.sgPermissions
        region sg) protocol p cidr = 1 ∧
    ruleAuthorizer
        (ruleAuthorizer w region sg protocol port cidr desc).world
        region sg protocol port cidr desc =
      { exitCode := 0, message := alreadyAllowedMsg cidr protocol port sg,
        trace := [ExtCall.read (ReadCall.describeSecurityGroups region sg)],
        world := (ruleAuthorizer w region sg protocol port cidr desc).world } := by
  by_cases hm : hasMatching (w.sgPermissions region sg) protocol p cidr = true
  · have e := ruleAuthorizer_existing w region sg protocol port cidr desc p hp hm
    have hc1 : countMatching (w.sgPermissions region sg) protocol p cidr = 1 := by
      have hpos : 0 < countMatching (w.sgPermissions region sg) protocol p cidr := by
        unfold countMatching
        rw [List.countP_pos_iff]
        rw [hasMatching, List.any_eq_true] at hm
        exact hm
      omega
    refine ⟨fun _ => e, ?_, ?_⟩
    · rw [e]
      exact hc1
    · rw [e]
      exact e
  · have hmf : hasMatching (w.sgPermissions region sg) protocol p cidr = false :=
      Bool.eq_false_iff.mpr hm
    have e := ruleAuthorizer_absent w region sg protocol port cidr desc p hp hmf
    have hc0 : countMatching (w.sgPermissions region sg) protocol p cidr = 0 := by
      unfold countMatching
      rw [List.countP_eq_zero]
      rw [hasMatching, List.any_eq_false] at hmf
      intro a ha
      simp [hmf a ha]
    have hm2 : hasMatching
        ((applyAuthorize w region sg protocol p cidr desc).sgPermissions region sg)
        protocol p cidr = true := by
      rw [applyAuthorize_at, hasMatching, List.any_append]
      simp [matchesRule_new]
    refine ⟨fun hcontr => absurd hcontr hm, ?_, ?_⟩
    · rw [e]
      unfold countMatching
      rw [applyAuthorize_at, List.countP_append]
      have h0 : (w.sgPermissions region sg).countP
          (fun q => matchesRule q protocol p cidr) = 0 := hc0
      rw [h0]
      simp [matchesRule_new]
    · rw [e]
      exact ruleAuthorizer_existing (applyAuthorize w region sg protocol p cidr desc)
        region sg protocol port cidr desc p hp hm2

/-- Witness for C1 at concrete inputs: adding `198.51.100.7/32` to the
group of `wEx` and running again leaves exactly one matching rule and the
second run exits 0 without mutating. -/
theorem ruleAuthorizer_idempotent_witness :
    countMatching
        ((ruleAuthorizer wEx "ap-southeast-5" "sg-0abc" "tcp" "8080"
            "198.51.100.7/32" "codex-whitelist").world.sgPermissions
          "ap-southeast-5" "sg-0abc") "tcp" 8080 "198.51.100.7/32" = 1 ∧
      (ruleAuthorizer
          (ruleAuthorizer wEx "ap-southeast-5" "sg-0abc" "tcp" "8080"
            "198.51.100.7/32" "codex-whitelist").world
          "ap-southeast-5" "sg-0abc" "tcp" "8080" "198.51.100.7/32"
          "codex-whitelist").exitCode = 0 := by
  have h := ruleAuthorizer_idempotent wEx "ap-southeast-5" "sg-0abc" "tcp"
    "8080" "198.51.100.7/32" "codex-whitelist" 8080 (by decide) (by decide)
  exact ⟨h.2.1, by rw [h.2.2]⟩

/-- The final authorization stage obeys the mutation discipline. -/
theorem scriptFinish_safe (w : World) (t : List ReadCall)
    (region sg protocol port cidr desc : String) :
    mutationSafe w (scriptFinish w t region sg protocol port cidr desc) := by
  unfold mutationSafe scriptFinish ruleAuthorizer
  cases hp : portLiteral? port with
  | none =>
    simp [List.filter_append, filter_isMutation_map_read, isMutation]
  | some p =>
    by_cases hm : hasMatching (w.sgPermissions region sg) protocol p cidr = true
    · simp [hm, List.filter_append, filter_isMutation_map_read, isMutation]
    · simp [hm, List.filter_append, filter_isMutation_map_read, isMutation]

/-- The port stage obeys the mutation discipline. -/
theorem scriptPortStage_safe (w : World) (t : List ReadCall)
    (region cidr sg : String) (f : Flags) :
    mutationSafe w (scriptPortStage w t region cidr sg f) := by
  unfold scriptPortStage
  rcases hp : resolvePortT w region sg f with ⟨r, t4⟩
  cases r with
  | error e =>
    exact ⟨by simp [filter_isMutation_map_read],
      fun _ => ⟨filter_isMutation_map_read _, rfl⟩, fun _ => rfl⟩
  | ok port =>
    exact scriptFinish_safe w (t ++ t4) region sg f.protocol port cidr
      f.description

/-- The security-group stage obeys the mutation discipline. -/
theorem scriptSgStage_safe (w : World) (t : List ReadCall)
    (region cidr : String) (f : Flags) :
    mutationSafe w (scriptSgStage w t region cidr f) := by
  unfold scriptSgStage
  rcases hs : resolveSgT w region f with ⟨r, t3⟩
  cases r with
  | error e =>
    exact ⟨by simp [filter_isMutation_map_read],
      fun _ => ⟨filter_isMutation_map_read _, rfl⟩, fun _ => rfl⟩
  | ok sg => exact scriptPortStage_safe w (t ++ t3) region cidr sg f

/-- The CIDR stage obeys the mutation discipline. -/
theorem scriptCidrStage_safe (w : World) (t : List ReadCall)
    (region : String) (f : Flags) :
    mutationSafe w (scriptCidrStage w t region f) := by
  unfold scriptCidrStage
  rcases hc : resolveCidrT w f with ⟨r, t2⟩
  cases r with
  | error e =>
    exact ⟨by simp [filter_isMutation_map_read],
      fun _ => ⟨filter_isMutation_map_read _, rfl⟩, fun _ => rfl⟩
  | ok cidr => exact scriptSgStage_safe w (t ++ t2) region cidr f

/-- C9: in every run the authorize-ingress mutation is the only mutating
call and the trace carries it at most once; on every failing exit no
mutating call was issued and the remote state is unchanged; and whenever no
mutating call was issued the remote state is unchanged (in particular,
there is no retry of a mutation — one run issues at most one). -/
theorem runScript_mutation_once (w : World) (f : Flags) :
    ((runScript w f).trace.filter isMutation).length ≤ 1 ∧
    ((runScript w f).exitCode ≠ 0 →
      (runScript w f).trace.filter isMutation = [] ∧
        (runScript w f).world = w) ∧
    ((runScript w f).trace.filter isMutation = [] →
      (runScript w f).world = w) := by
  have h : mutationSafe w (runScript w f) := by
    simp only [runScript]
    rcases hr : resolveRegionT w (parseUrl w f).1 with ⟨r, t1⟩
    cases r with
    | error e =>
      exact ⟨by simp [filter_isMutation_map_read],
        fun _ => ⟨filter_isMutation_map_read _, rfl⟩, fun _ => rfl⟩
    | ok region =>
      exact scriptCidrStage_safe w ((parseUrl w f).2 ++ t1) region
        (parseUrl w f).1
  exact h

/-- Witness for C9 at a concrete input: a full successful run issues at
most one mutating call. -/
theorem runScript_mutation_once_witness :
    ((runScript wEx { url := "http://43.216.215.179:8080/" }).trace.filter
        isMutation).length ≤ 1 :=
  (runScript_mutation_once wEx { url := "http://43.216.215.179:8080/" }).1
